import Mathlib

/-!
Verification of the node-based pipeline orchestration engine and its two
workflows (analyze_paper.py, pdf_to_markdown.py) from the mytools repository.

The engine itself (quantalogic.flow.flow: Workflow, Nodes, the run loop) is an
external package; it is modelled from the specification (sections 4.3, 4.4, 7).
All step logics, the workflow topology of create_file_to_linkedin_workflow, and
run_workflow are translated from the repository sources.  File-system access,
the vision model (zerox), the language-generation collaborator, the structured
output coercion, the regex-cleaning library and the clipboard are external
effects; they are modelled as oracle parameters gathered in a World record.
-/

namespace MyTools

/-! ## Python dictionaries (string-keyed, insertion ordered) -/

/-- Python dict lookup on an insertion-ordered association list. -/
def dictGet {α : Type} : List (String × α) → String → Option α
  | [], _ => Option.none
  | (k, v) :: rest, key => if k = key then some v else dictGet rest key

/-- Python dict assignment: overwrite in place when the key exists,
append otherwise (insertion order preserved). -/
def dictSet {α : Type} : List (String × α) → String → α → List (String × α)
  | [], key, v => [(key, v)]
  | (k, w) :: rest, key, v =>
      if k = key then (key, v) :: rest else (k, w) :: dictSet rest key v

theorem dictGet_set_self {α : Type} (d : List (String × α)) (k : String) (v : α) :
    dictGet (dictSet d k v) k = some v := by
  induction d with
  | nil => simp [dictGet, dictSet]
  | cons hd tl ih =>
      by_cases h : hd.1 = k
      · simp [dictSet, h, dictGet]
      · simp [dictSet, h, dictGet, ih]

theorem dictGet_set_other {α : Type} (d : List (String × α)) (k key : String) (v : α)
    (h : k ≠ key) : dictGet (dictSet d k v) key = dictGet d key := by
  induction d with
  | nil => simp [dictGet, dictSet, h]
  | cons hd tl ih =>
      by_cases h2 : hd.1 = k
      · simp [dictSet, h2, dictGet, h]
      · by_cases h3 : hd.1 = key
        · simp [dictSet, h2, dictGet, h3, Ne.symm h]
        · simp [dictSet, h2, dictGet, h3, ih]

theorem dictSet_set_self {α : Type} (d : List (String × α)) (k : String) (v w : α) :
    dictSet (dictSet d k v) k w = dictSet d k w := by
  induction d with
  | nil => simp [dictSet]
  | cons hd tl ih =>
      by_cases h : hd.1 = k
      · simp [dictSet, h]
      · simp [dictSet, h, ih]

/-! ## Values and contexts -/

/-- Structured shape declared by the extract_paper_info node
(pydantic model PaperInfo: a title and a list of authors). -/
structure PaperInfo where
  title : String
  authors : List String
deriving DecidableEq, Repr

/-- A value stored in the run context (Python object, restricted to the
shapes this program actually stores). -/
inductive Value where
  | str (s : String)
  | int (n : Int)
  | bool (b : Bool)
  | pinfo (p : PaperInfo)
  | pynone
deriving DecidableEq, Repr

/-- Python truthiness for the value shapes above (used by
run_workflow: not result of key). -/
def pyFalsy : Value → Bool
  | Value.str s => s == ""
  | Value.int n => n == 0
  | Value.bool b => !b
  | Value.pinfo _ => false
  | Value.pynone => true

/-- The shared run context: a string-keyed mapping threaded between steps. -/
abbrev Context := List (String × Value)

def ctxGet (ctx : Context) (key : String) : Option Value := dictGet ctx key

def ctxSet (ctx : Context) (key : String) (v : Value) : Context := dictSet ctx key v

/-! ## Errors -/

/-- Errors raised inside step logic (Python exceptions). -/
inductive PyErr where
  | valueError (msg : String)
  | ioError (msg : String)
  | structuredOutputMismatch
  | missingInput (key : String)
  | generic (msg : String)
deriving DecidableEq, Repr

/-- Run-level errors surfaced by the engine or by run_workflow. -/
inductive FlowError where
  | stepError (step : String) (e : PyErr)
  | missingNode (step : String)
  | callerError (e : PyErr)
deriving DecidableEq, Repr

/-! ## File system and path handling -/

/-- The file system as a mapping from path to file contents. -/
abbrev FS := List (String × String)

def fsGet (fs : FS) (path : String) : Option String := dictGet fs path

/-- Writing a file in mode w: overwrite if present, create otherwise. -/
def fsWrite (fs : FS) (path content : String) : FS := dictSet fs path content

/-- Split a character list on a separator character (the list-level core of
str.split with a one-character separator). -/
def splitOnChar (c : Char) : List Char → List (List Char)
  | [] => [[]]
  | x :: xs =>
      let r := splitOnChar c xs
      if x = c then [] :: r
      else
        match r with
        | [] => [[x]]
        | y :: ys => (x :: y) :: ys

/-- str.join over a separator. -/
def joinWith (sep : String) : List String → String
  | [] => ""
  | [x] => x
  | x :: y :: ys => x ++ sep ++ joinWith sep (y :: ys)

/-- str.lower restricted to ASCII (sufficient for the extensions compared). -/
def strToLower (s : String) : String := String.mk (s.data.map Char.toLower)

/-- str.strip: drop leading and trailing whitespace. -/
def strTrim (s : String) : String :=
  String.mk
    (((s.data.dropWhile Char.isWhitespace).reverse.dropWhile Char.isWhitespace).reverse)

/-- str.endswith. -/
def strEndsWith (s suffix2 : String) : Bool := suffix2.data.isSuffixOf s.data

/-- os.path.expanduser: expand a leading tilde to the home directory. -/
def expanduser (home path : String) : String :=
  if path = "~" then home
  else if "~/".data.isPrefixOf path.data then home ++ String.mk (path.data.drop 1)
  else path

/-- Final path component (pathlib Path.name for the paths this program uses). -/
def fileName (p : String) : String :=
  String.mk ((splitOnChar '/' p.data).getLastD [])

/-- Directory part of a path, including the trailing slash. -/
def dirPart (p : String) : String :=
  String.mk (p.data.take (p.data.length - (fileName p).data.length))

/-- Index of the last occurrence of a character in a list, if any. -/
def lastIdxOf (c : Char) : List Char → Option Nat
  | [] => Option.none
  | x :: xs =>
      match lastIdxOf c xs with
      | some i => some (i + 1)
      | Option.none => if x = c then some 0 else Option.none

/-- pathlib suffix handling: split a file name into stem and suffix when the
last dot sits strictly inside the name (CPython: 0 < i < len(name) - 1). -/
def lastDotSplit (name : String) : Option (String × String) :=
  let cs := name.data
  match lastIdxOf '.' cs with
  | Option.none => Option.none
  | some i =>
      if 0 < i ∧ i < cs.length - 1 then
        some (String.mk (cs.take i), String.mk (cs.drop i))
      else Option.none

/-- pathlib Path.suffix. -/
def pySuffix (p : String) : String :=
  match lastDotSplit (fileName p) with
  | some sp => sp.2
  | Option.none => ""

/-- pathlib Path.with_suffix: replace the existing suffix of the final
component (or append when there is none). -/
def pyWithSuffix (p suffix2 : String) : String :=
  let name := fileName p
  let newName :=
    match lastDotSplit name with
    | some sp => sp.1 ++ suffix2
    | Option.none => name ++ suffix2
  dirPart p ++ newName

/-- pathlib Path.parent rendered as a string. -/
def pyParent (p : String) : String :=
  let d := dirPart p
  if d = "" then "."
  else if d = "/" then "/"
  else String.mk (d.data.take (d.data.length - 1))

/-! ## Step logics translated from analyze_paper.py -/

/-- analyze_paper.py check_file_type: classify the file by extension after
expanding the user path; missing files and unknown extensions raise ValueError
before any result is produced. -/
def check_file_type (fs : FS) (home : String) (file_path : String) :
    Except PyErr String :=
  let fp := expanduser home file_path
  if (fsGet fs fp).isNone then
    Except.error (PyErr.valueError ("File not found: " ++ fp))
  else
    let ext := strToLower (pySuffix fp)
    if ext = ".pdf" then Except.ok "pdf"
    else if ext = ".txt" then Except.ok "text"
    else if ext = ".md" then Except.ok "markdown"
    else Except.error (PyErr.valueError ("Unsupported file type: " ++ ext))

/-- analyze_paper.py read_text_or_markdown: reject file types other than text
and markdown, then read the file; a read failure is re-raised. -/
def read_text_or_markdown (fs : FS) (home : String) (file_path file_type : String) :
    Except PyErr String :=
  if file_type ≠ "text" ∧ file_type ≠ "markdown" then
    Except.error (PyErr.valueError ("Expected text or markdown, got " ++ file_type))
  else
    match fsGet fs (expanduser home file_path) with
    | some content => Except.ok content
    | Option.none => Except.error (PyErr.ioError ("Error reading file " ++ file_path))

/-- The shape of a zerox call result as probed by convert_pdf_to_markdown:
either a Python str, or an object that may carry a pages list (each page with
an optional content attribute), a markdown attribute, a text attribute, and a
string rendering used as the final fallback. -/
structure ZeroxObj where
  pages : Option (List (Option String))
  markdown : Option String
  text : Option String
  asString : String
deriving DecidableEq, Repr

inductive ZeroxResult where
  | pyStr (s : String)
  | obj (o : ZeroxObj)
deriving DecidableEq, Repr

/-- The attribute-probing chain of convert_pdf_to_markdown, in source order:
a non-empty pages list wins, then str instances, then a markdown attribute,
then a text attribute, then stringification. -/
def unwrapZerox (r : ZeroxResult) : String :=
  match r with
  | ZeroxResult.pyStr s => s
  | ZeroxResult.obj o =>
      match o.pages with
      | some ps =>
          if ps ≠ [] then
            joinWith "\n\n" ((ps.filterMap id).filter (fun c => c ≠ ""))
          else
            match o.markdown with
            | some m => m
            | Option.none =>
                match o.text with
                | some t => t
                | Option.none => o.asString
      | Option.none =>
          match o.markdown with
          | some m => m
          | Option.none =>
              match o.text with
              | some t => t
              | Option.none => o.asString

/-- analyze_paper.py convert_pdf_to_markdown: validate the path, call the
zerox collaborator (an oracle here), unwrap the result through the attribute
probing chain, and blank out whitespace-only content. -/
def convert_pdf_to_markdown (fs : FS) (home : String)
    (zerox : String → String → Except PyErr ZeroxResult)
    (file_path model : String) : Except PyErr String :=
  let fp := expanduser home file_path
  if fp = "" then Except.error (PyErr.valueError "File path is required")
  else if (fsGet fs fp).isNone then
    Except.error (PyErr.valueError ("File not found: " ++ fp))
  else if ¬ (strEndsWith (strToLower fp) ".pdf") then
    Except.error (PyErr.valueError ("File must be a PDF: " ++ fp))
  else
    match zerox fp model with
    | Except.error e => Except.error e
    | Except.ok r =>
        let markdown_content := unwrapZerox r
        if strTrim markdown_content = "" then Except.ok ""
        else Except.ok markdown_content

/-- analyze_paper.py save_markdown_content: write the markdown next to the
input file under the fixed suffix .extracted.md (with_suffix semantics,
overwrite on conflict) and return the written path. -/
def save_markdown_content (fs : FS) (home : String)
    (markdown_content file_path : String) : Except PyErr (FS × String) :=
  let fpe := expanduser home file_path
  if fileName fpe = "" then
    Except.error (PyErr.valueError "path has an empty name")
  else
    let output_path := pyWithSuffix fpe ".extracted.md"
    Except.ok (fsWrite fs output_path markdown_content, output_path)

/-- analyze_paper.py extract_first_100_lines (LF line model). -/
def extract_first_100_lines (markdown_content : String) : Except PyErr String :=
  Except.ok
    (joinWith "\n" (((splitOnChar '\n' markdown_content.data).map String.mk).take 100))

/-- analyze_paper.py extract_title_str. -/
def extract_title_str (paper_info : PaperInfo) : Except PyErr String :=
  Except.ok paper_info.title

/-- analyze_paper.py extract_authors_str. -/
def extract_authors_str (paper_info : PaperInfo) : Except PyErr String :=
  Except.ok (joinWith ", " paper_info.authors)

/-- analyze_paper.py save_draft_post_content: write the draft next to the
input file under the fixed suffix .draft.md and return the written path. -/
def save_draft_post_content (fs : FS) (home : String)
    (draft_post_content file_path : String) : Except PyErr (FS × String) :=
  let fpe := expanduser home file_path
  if fileName fpe = "" then
    Except.error (PyErr.valueError "path has an empty name")
  else
    let output_path := pyWithSuffix fpe ".draft.md"
    Except.ok (fsWrite fs output_path draft_post_content, output_path)

/-- analyze_paper.py clean_markdown_syntax: the body applies a fixed chain of
regex substitutions followed by strip, modelled by the cleanOp oracle since
regex semantics live in the external re library; the try and except structure
is translated exactly: on success the cleaned text is returned, on ANY error
the ORIGINAL post_content is returned instead of re-raising. -/
def clean_markdown_syntax (cleanOp : String → Except PyErr String)
    (post_content : String) : Except PyErr String :=
  match cleanOp post_content with
  | Except.ok cleaned => Except.ok cleaned
  | Except.error _ => Except.ok post_content

/-- analyze_paper.py copy_to_clipboard: copy when do_copy is set (a clipboard
failure is re-raised), otherwise skip. -/
def copy_to_clipboard (clip : String → Except PyErr Unit)
    (post_content : String) (do_copy : Bool) : Except PyErr String :=
  if do_copy then
    match clip post_content with
    | Except.ok _ => Except.ok "Content copied to clipboard"
    | Except.error e => Except.error e
  else Except.ok "Clipboard copying skipped"

/-- pdf_to_markdown.py save_node: write the markdown to the given output path
(overwriting if it exists) and return that path. -/
def save_node (fs : FS) (markdown_content output_md : String) :
    Except PyErr (FS × String) :=
  Except.ok (fsWrite fs output_md markdown_content, output_md)

/-! ## The engine, modelled from the spec -/

/-- Modelled from the spec: a registered step (quantalogic Nodes) carries the
context key it writes its result to and its logic over the resolved context. -/
structure Node where
  output : String
  logic : Context → Except PyErr Value

/-- Modelled from the spec: a built workflow (quantalogic Workflow) is an
entry step name, a step registry, and a transition table mapping a source
step to its ordered list of (target, optional guard) transitions. -/
structure Workflow where
  entry : String
  nodes : List (String × Node)
  transitions : List (String × List (String × Option (Context → Bool)))

def lookupNode (wf : Workflow) (name : String) : Option Node :=
  dictGet wf.nodes name

def transitionsOf (wf : Workflow) (name : String) :
    List (String × Option (Context → Bool)) :=
  (dictGet wf.transitions name).getD []

/-- Modelled from the spec (section 4.4): evaluate the transition list in
declaration order against the updated context; an unconditional transition
fires, the first guard returning true fires, and when nothing matches the
run halts at this step. -/
def selectTransition (ctx : Context) :
    List (String × Option (Context → Bool)) → Option String
  | [] => Option.none
  | (tgt, Option.none) :: _ => some tgt
  | (tgt, some g) :: rest => if g ctx then some tgt else selectTransition ctx rest

/-- Modelled from the spec (sections 4.4 and 7): execute one step.  The logic
runs against the context; an error aborts the step wrapping the failing step
name; on success the result is committed under the output key and the
transition list is evaluated against the updated context. -/
def runStep (wf : Workflow) (name : String) (ctx : Context) :
    Except FlowError (Context × Option String) :=
  match lookupNode wf name with
  | Option.none => Except.error (FlowError.missingNode name)
  | some node =>
      match node.logic ctx with
      | Except.error e => Except.error (FlowError.stepError name e)
      | Except.ok v =>
          let ctx2 := ctxSet ctx node.output v
          Except.ok (ctx2, selectTransition ctx2 (transitionsOf wf name))

/-- Modelled from the spec (section 4.4): the run loop.  Steps execute
strictly sequentially; an error aborts the run; when no transition matches
the current context the run halts and the context is returned.  The engine
has no cycle detection (an explicit design risk in the spec), so the loop is
bounded by fuel; every claim supplies ample fuel for the acyclic graphs in
use. -/
def runFrom (wf : Workflow) : Nat → String → Context → Except FlowError Context
  | 0, _, ctx => Except.ok ctx
  | Nat.succ fuel, name, ctx =>
      match runStep wf name ctx with
      | Except.error e => Except.error e
      | Except.ok (ctx2, Option.none) => Except.ok ctx2
      | Except.ok (ctx2, some next) => runFrom wf fuel next ctx2

/-- Modelled from the spec: engine.run starts at the entry step. -/
def run (wf : Workflow) (fuel : Nat) (ctx : Context) : Except FlowError Context :=
  runFrom wf fuel wf.entry ctx

/-! ## External collaborators bundled as oracles -/

/-- The external world of a run: the file system, the home directory used by
expanduser, and the external collaborators invoked from step logic. -/
structure World where
  fs : FS
  home : String
  zerox : String → String → Except PyErr ZeroxResult
  llm : String → Except PyErr String
  coercePaperInfo : String → Option PaperInfo
  cleanOp : String → Except PyErr String
  clip : String → Except PyErr Unit

/-! ## Node registrations for the file-to-linkedin workflow -/

def getStr (ctx : Context) (key : String) : Except PyErr String :=
  match ctxGet ctx key with
  | some (Value.str s) => Except.ok s
  | _ => Except.error (PyErr.missingInput key)

def getBool (ctx : Context) (key : String) : Except PyErr Bool :=
  match ctxGet ctx key with
  | some (Value.bool b) => Except.ok b
  | _ => Except.error (PyErr.missingInput key)

def getInt (ctx : Context) (key : String) : Except PyErr Int :=
  match ctxGet ctx key with
  | some (Value.int n) => Except.ok n
  | _ => Except.error (PyErr.missingInput key)

def getPaperInfo (ctx : Context) (key : String) : Except PyErr PaperInfo :=
  match ctxGet ctx key with
  | some (Value.pinfo p) => Except.ok p
  | _ => Except.error (PyErr.missingInput key)

def checkFileTypeNode (w : World) : Node where
  output := "file_type"
  logic := fun ctx => do
    let fp ← getStr ctx "file_path"
    (check_file_type w.fs w.home fp).map Value.str

/-- convert_pdf_to_markdown registered with inputs_mapping
model := text_extraction_model. -/
def convertPdfNode (w : World) : Node where
  output := "markdown_content"
  logic := fun ctx => do
    let fp ← getStr ctx "file_path"
    let model ← getStr ctx "text_extraction_model"
    (convert_pdf_to_markdown w.fs w.home w.zerox fp model).map Value.str

def readTextNode (w : World) : Node where
  output := "markdown_content"
  logic := fun ctx => do
    let fp ← getStr ctx "file_path"
    let ft ← getStr ctx "file_type"
    (read_text_or_markdown w.fs w.home fp ft).map Value.str

/-- The engine-facing view of save_markdown_content returns the written path;
the file-system effect itself is proved on save_markdown_content directly. -/
def saveMarkdownNode (w : World) : Node where
  output := "markdown_file_path"
  logic := fun ctx => do
    let mc ← getStr ctx "markdown_content"
    let fp ← getStr ctx "file_path"
    match save_markdown_content w.fs w.home mc fp with
    | Except.ok r => Except.ok (Value.str r.2)
    | Except.error e => Except.error e

def extractFirst100Node : Node where
  output := "first_100_lines"
  logic := fun ctx => do
    let mc ← getStr ctx "markdown_content"
    (extract_first_100_lines mc).map Value.str

/-- The rendered prompt of the extract_paper_info template, applied to the
resolved first_100_lines input. -/
def extractPaperInfoPrompt (first_100_lines : String) : String :=
  "Extract the title and a list of authors from the following Markdown text. "
    ++ "The title is typically the first heading or prominent text, and authors "
    ++ "are usually listed below it:\n\n" ++ first_100_lines

/-- Modelled from the spec: quantalogic Nodes.structured_llm_node composes the
prompt, delegates to the language-generation collaborator, and coerces the
response into the declared PaperInfo shape; an uncoercible response fails the
step with StructuredOutputMismatch, so no output is committed. -/
def extractPaperInfoNode (w : World) : Node where
  output := "paper_info"
  logic := fun ctx => do
    let lines ← getStr ctx "first_100_lines"
    let response ← w.llm (extractPaperInfoPrompt lines)
    match w.coercePaperInfo response with
    | some p => Except.ok (Value.pinfo p)
    | Option.none => Except.error PyErr.structuredOutputMismatch

def extractTitleNode : Node where
  output := "title_str"
  logic := fun ctx => do
    let p ← getPaperInfo ctx "paper_info"
    (extract_title_str p).map Value.str

def extractAuthorsNode : Node where
  output := "authors_str"
  logic := fun ctx => do
    let p ← getPaperInfo ctx "paper_info"
    (extract_authors_str p).map Value.str

/-- The rendered prompt of the generate_linkedin_post template over its
resolved inputs (the surrounding instruction text is abbreviated; what
matters to the engine is that the prompt is a deterministic function of the
inputs). -/
def generatePostPrompt (title_str authors_str markdown_content : String)
    (max_character_count : Int) : String :=
  "Write the best possible LinkedIn post to introduce a new research paper "
    ++ title_str ++ " from " ++ authors_str ++ ".\n\n" ++ markdown_content
    ++ "\n\nKeep the post around or under "
    ++ toString max_character_count ++ " characters."

/-- Modelled from the spec: quantalogic Nodes.llm_node composes the prompt
and returns the collaborator response as plain text. -/
def generatePostNode (w : World) : Node where
  output := "draft_post_content"
  logic := fun ctx => do
    let t ← getStr ctx "title_str"
    let a ← getStr ctx "authors_str"
    let mc ← getStr ctx "markdown_content"
    let n ← getInt ctx "max_character_count"
    (w.llm (generatePostPrompt t a mc n)).map Value.str

def saveDraftNode (w : World) : Node where
  output := "draft_post_file_path"
  logic := fun ctx => do
    let dc ← getStr ctx "draft_post_content"
    let fp ← getStr ctx "file_path"
    match save_draft_post_content w.fs w.home dc fp with
    | Except.ok r => Except.ok (Value.str r.2)
    | Except.error e => Except.error e

/-- The rendered prompt of the format_linkedin_post template. -/
def formatPostPrompt (draft_post_content : String) : String :=
  "Format the following draft LinkedIn post for direct publishing:\n\n"
    ++ draft_post_content

def formatPostNode (w : World) : Node where
  output := "post_content"
  logic := fun ctx => do
    let dc ← getStr ctx "draft_post_content"
    (w.llm (formatPostPrompt dc)).map Value.str

def cleanNode (w : World) : Node where
  output := "cleaned_post_content"
  logic := fun ctx => do
    let pc ← getStr ctx "post_content"
    clean_markdown_syntax w.cleanOp pc |>.map Value.str

def clipboardNode (w : World) : Node where
  output := "clipboard_status"
  logic := fun ctx => do
    let pc ← getStr ctx "post_content"
    let dc ← getBool ctx "do_copy"
    (copy_to_clipboard w.clip pc dc).map Value.str

/-! ## The workflow graph from create_file_to_linkedin_workflow -/

/-- First branch guard at check_file_type: ctx of file_type equals pdf. -/
def guardPdf : Context → Bool :=
  fun ctx => ctxGet ctx "file_type" == some (Value.str "pdf")

/-- Second branch guard: ctx of file_type is text or markdown. -/
def guardTextOrMarkdown : Context → Bool :=
  fun ctx =>
    ctxGet ctx "file_type" == some (Value.str "text")
      || ctxGet ctx "file_type" == some (Value.str "markdown")

/-- analyze_paper.py create_file_to_linkedin_workflow: entry check_file_type,
the ordered branch at check_file_type, and the explicitly assigned linear
transitions down to copy_to_clipboard. -/
def create_file_to_linkedin_workflow (w : World) : Workflow where
  entry := "check_file_type"
  nodes := [
    ("check_file_type", checkFileTypeNode w),
    ("convert_pdf_to_markdown", convertPdfNode w),
    ("read_text_or_markdown", readTextNode w),
    ("save_markdown_content", saveMarkdownNode w),
    ("extract_first_100_lines", extractFirst100Node),
    ("extract_paper_info", extractPaperInfoNode w),
    ("extract_title_str", extractTitleNode),
    ("extract_authors_str", extractAuthorsNode),
    ("generate_linkedin_post", generatePostNode w),
    ("save_draft_post_content", saveDraftNode w),
    ("format_linkedin_post", formatPostNode w),
    ("clean_markdown_syntax", cleanNode w),
    ("copy_to_clipboard", clipboardNode w)]
  transitions := [
    ("check_file_type",
      [("convert_pdf_to_markdown", some guardPdf),
       ("read_text_or_markdown", some guardTextOrMarkdown)]),
    ("convert_pdf_to_markdown", [("save_markdown_content", Option.none)]),
    ("read_text_or_markdown", [("save_markdown_content", Option.none)]),
    ("save_markdown_content", [("extract_first_100_lines", Option.none)]),
    ("extract_first_100_lines", [("extract_paper_info", Option.none)]),
    ("extract_paper_info", [("extract_title_str", Option.none)]),
    ("extract_title_str", [("extract_authors_str", Option.none)]),
    ("extract_authors_str", [("generate_linkedin_post", Option.none)]),
    ("generate_linkedin_post", [("save_draft_post_content", Option.none)]),
    ("save_draft_post_content", [("format_linkedin_post", Option.none)]),
    ("format_linkedin_post", [("clean_markdown_syntax", Option.none)]),
    ("clean_markdown_syntax", [("copy_to_clipboard", Option.none)])]

/-! ## run_workflow from analyze_paper.py -/

/-- The initial context assembled by run_workflow. -/
def initialContext (w : World) (file_path text_extraction_model cleaning_model
    writing_model : String) (output_dir : Option String)
    (copy_to_clipboard_flag : Bool) (max_character_count : Int) : Context :=
  let fp := expanduser w.home file_path
  [("file_path", Value.str fp),
   ("model", Value.str text_extraction_model),
   ("text_extraction_model", Value.str text_extraction_model),
   ("cleaning_model", Value.str cleaning_model),
   ("writing_model", Value.str writing_model),
   ("output_dir", Value.str (match output_dir with
     | some d => expanduser w.home d
     | Option.none => pyParent fp)),
   ("do_copy", Value.bool copy_to_clipboard_flag),
   ("max_character_count", Value.int max_character_count)]

/-- The probe run_workflow applies to the engine result:
post_content not in result, or not result of post_content. -/
def postContentAbsentOrFalsy (result : Context) : Bool :=
  match ctxGet result "post_content" with
  | Option.none => true
  | some v => pyFalsy v

/-- analyze_paper.py run_workflow: expand the path, reject missing files,
build the initial context, run the engine, then raise when the final context
lacks a non-empty post_content and return the result otherwise. -/
def run_workflow (w : World) (fuel : Nat) (file_path text_extraction_model
    cleaning_model writing_model : String) (output_dir : Option String)
    (copy_to_clipboard_flag : Bool) (max_character_count : Int) :
    Except FlowError Context :=
  let fp := expanduser w.home file_path
  if (fsGet w.fs fp).isNone then
    Except.error (FlowError.callerError (PyErr.valueError ("File not found: " ++ fp)))
  else
    match run (create_file_to_linkedin_workflow w) fuel
        (initialContext w file_path text_extraction_model cleaning_model
          writing_model output_dir copy_to_clipboard_flag max_character_count) with
    | Except.error e => Except.error e
    | Except.ok result =>
        if postContentAbsentOrFalsy result then
          Except.error (FlowError.callerError
            (PyErr.valueError "Workflow completed but no post content was generated."))
        else Except.ok result

/-! ## Test fixtures -/

/-- Test fixture: a trivial step writing a constant to key k. -/
def demoNode : Node where
  output := "k"
  logic := fun _ => Except.ok (Value.str "x")

/-- Test fixture: a one-step workflow whose two branch guards both return
true on every context (the guard-order scenario of spec section 8). -/
def overlapGuardsWorkflow : Workflow where
  entry := "s"
  nodes := [("s", demoNode)]
  transitions := [("s", [("T1", some (fun _ => true)), ("T2", some (fun _ => true))])]

/-- Test fixture: a one-step workflow whose single guarded transition never
matches (scenario 4 of spec section 8). -/
def deadEndWorkflow : Workflow where
  entry := "s"
  nodes := [("s", demoNode)]
  transitions := [("s", [("T1", some (fun _ => false))])]

/-- Test fixture: a world whose regex-cleaning library call fails. -/
def failingCleanWorld : World where
  fs := []
  home := "/h"
  zerox := fun _ _ => Except.error (PyErr.generic "no network")
  llm := fun _ => Except.ok "resp"
  coercePaperInfo := fun _ => Option.none
  cleanOp := fun _ => Except.error (PyErr.generic "regex failure")
  clip := fun _ => Except.ok ()

/-- Test fixture: a world on which every collaborator succeeds and the file
system holds a single text file. -/
def happyWorld : World where
  fs := [("/d/report.txt", "file body")]
  home := "/h"
  zerox := fun _ _ => Except.error (PyErr.generic "no network")
  llm := fun _ => Except.ok "resp"
  coercePaperInfo := fun _ => some { title := "T", authors := ["A", "B"] }
  cleanOp := fun s => Except.ok s
  clip := fun _ => Except.ok ()

/-! ## Engine theorems -/

/-- C1: for a branch step with ordered guarded transitions
[(T1, g1), (T2, g2)] and a context (after the step committed its output) on
which both guards return true, the engine transitions to T1: guards are
evaluated in declaration order and the first true guard selects the target. -/
theorem branch_first_guard_wins (wf : Workflow) (s T1 T2 : String)
    (g1 g2 : Context → Bool) (node : Node) (ctx : Context) (v : Value)
    (hn : lookupNode wf s = some node)
    (hl : node.logic ctx = Except.ok v)
    (ht : transitionsOf wf s = [(T1, some g1), (T2, some g2)])
    (h1 : g1 (ctxSet ctx node.output v) = true)
    (_h2 : g2 (ctxSet ctx node.output v) = true) :
    runStep wf s ctx = Except.ok (ctxSet ctx node.output v, some T1) := by
  simp [runStep, hn, hl, ht, selectTransition, h1]

theorem branch_first_guard_wins_witness :
    runStep overlapGuardsWorkflow "s" [] =
      Except.ok ([("k", Value.str "x")], some "T1") :=
  branch_first_guard_wins overlapGuardsWorkflow "s" "T1" "T2"
    (fun _ => true) (fun _ => true) demoNode [] (Value.str "x")
    rfl rfl rfl rfl rfl

/-- Helper: a transition list whose guards all evaluate to false selects no
target. -/
theorem selectTransition_none_of_all_false (ctx : Context)
    (ts : List (String × Option (Context → Bool)))
    (h : ∀ t ∈ ts, ∃ g, t.2 = some g ∧ g ctx = false) :
    selectTransition ctx ts = Option.none := by
  induction ts with
  | nil => rfl
  | cons hd tl ih =>
      obtain ⟨g, hg1, hg2⟩ := h hd (List.mem_cons_self hd tl)
      obtain ⟨tgt, og⟩ := hd
      simp only at hg1
      subst hg1
      simp only [selectTransition, hg2, if_false, Bool.false_eq_true, ite_false]
      exact ih (fun t ht => h t (List.mem_cons_of_mem _ ht))

/-- C6: when a step succeeds and its transition list contains no
unconditional transition and no guard returning true on the updated context,
the run halts at that step and the engine returns the context as it stands,
as a success rather than an error. -/
theorem no_matching_guard_halts (wf : Workflow) (fuel : Nat) (name : String)
    (node : Node) (ctx : Context) (v : Value)
    (hn : lookupNode wf name = some node)
    (hl : node.logic ctx = Except.ok v)
    (hg : ∀ t ∈ transitionsOf wf name,
      ∃ g, t.2 = some g ∧ g (ctxSet ctx node.output v) = false) :
    runFrom wf (fuel + 1) name ctx = Except.ok (ctxSet ctx node.output v) := by
  have hsel := selectTransition_none_of_all_false (ctxSet ctx node.output v)
    (transitionsOf wf name) hg
  simp [runFrom, runStep, hn, hl, hsel]

theorem no_matching_guard_halts_witness :
    runFrom deadEndWorkflow 1 "s" [] = Except.ok [("k", Value.str "x")] :=
  no_matching_guard_halts deadEndWorkflow 0 "s" demoNode [] (Value.str "x")
    rfl rfl
    (by
      intro t ht
      simp only [transitionsOf, deadEndWorkflow, dictGet, if_pos, Option.getD_some,
        List.mem_singleton] at ht
      subst ht
      exact ⟨fun _ => false, rfl, rfl⟩)

/-- C2 counterexample: the claim says no step ever catches its own error and
returns a substitute result; clean_markdown_syntax does exactly that.  On a
world whose cleaning library call fails, the clean_markdown_syntax step
succeeds with the ORIGINAL post_content and the run moves on to
copy_to_clipboard instead of aborting. -/
theorem clean_step_swallows_error :
    (failingCleanWorld.cleanOp "hello" = Except.error (PyErr.generic "regex failure"))
      ∧ runStep (create_file_to_linkedin_workflow failingCleanWorld)
          "clean_markdown_syntax" [("post_content", Value.str "hello")]
        = Except.ok ([("post_content", Value.str "hello"),
                      ("cleaned_post_content", Value.str "hello")],
                     some "copy_to_clipboard") :=
  ⟨rfl, rfl⟩

/-- C2 amended: any error raised by a step logic aborts the run immediately
and propagates with the failing step name attached; however, the logic of
clean_markdown_syntax never raises: it catches any error of its internal
cleaning chain and returns the original post_content as its result, so an
internal cleaning failure does not abort the run. -/
theorem error_propagation_amended :
    (∀ (wf : Workflow) (fuel : Nat) (name : String) (node : Node)
        (ctx : Context) (e : PyErr),
      lookupNode wf name = some node → node.logic ctx = Except.error e →
      runFrom wf (fuel + 1) name ctx = Except.error (FlowError.stepError name e))
    ∧ (∀ (cleanOp : String → Except PyErr String) (post : String) (e : PyErr),
      cleanOp post = Except.error e →
      clean_markdown_syntax cleanOp post = Except.ok post) := by
  constructor
  · intro wf fuel name node ctx e hn hl
    simp [runFrom, runStep, hn, hl]
  · intro cleanOp post e h
    simp [ clean_markdown_syntax, h]

theorem error_propagation_amended_witness :
    runFrom (create_file_to_linkedin_workflow failingCleanWorld) 1 "check_file_type" []
        = Except.error (FlowError.stepError "check_file_type"
            (PyErr.missingInput "file_path"))
      ∧ clean_markdown_syntax failingCleanWorld.cleanOp "hello" = Except.ok "hello" :=
  ⟨error_propagation_amended.1 (create_file_to_linkedin_workflow failingCleanWorld) 0
      "check_file_type" (checkFileTypeNode failingCleanWorld) []
      (PyErr.missingInput "file_path") rfl rfl,
   error_propagation_amended.2 failingCleanWorld.cleanOp "hello"
      (PyErr.generic "regex failure") rfl⟩

/-! ## Registry and transition-table facts about the built workflow -/

theorem lookupNode_check (w : World) :
    lookupNode (create_file_to_linkedin_workflow w) "check_file_type"
      = some (checkFileTypeNode w) := rfl

theorem lookupNode_read (w : World) :
    lookupNode (create_file_to_linkedin_workflow w) "read_text_or_markdown"
      = some (readTextNode w) := rfl

theorem lookupNode_saveMarkdown (w : World) :
    lookupNode (create_file_to_linkedin_workflow w) "save_markdown_content"
      = some (saveMarkdownNode w) := rfl

theorem lookupNode_extractPaperInfo (w : World) :
    lookupNode (create_file_to_linkedin_workflow w) "extract_paper_info"
      = some (extractPaperInfoNode w) := rfl

theorem transitionsOf_check (w : World) :
    transitionsOf (create_file_to_linkedin_workflow w) "check_file_type"
      = [("convert_pdf_to_markdown", some guardPdf),
         ("read_text_or_markdown", some guardTextOrMarkdown)] := rfl

theorem transitionsOf_convert (w : World) :
    transitionsOf (create_file_to_linkedin_workflow w) "convert_pdf_to_markdown"
      = [("save_markdown_content", Option.none)] := rfl

theorem transitionsOf_read (w : World) :
    transitionsOf (create_file_to_linkedin_workflow w) "read_text_or_markdown"
      = [("save_markdown_content", Option.none)] := rfl

theorem transitionsOf_saveMarkdown (w : World) :
    transitionsOf (create_file_to_linkedin_workflow w) "save_markdown_content"
      = [("extract_first_100_lines", Option.none)] := rfl

/-! ## check_file_type classification -/

/-- C10: whenever check_file_type returns without error its result is
exactly one of pdf, text or markdown (so the file existed and its lowered
extension was one of .pdf, .txt, .md; anything else raises before the
file_type result is produced), and for each of the three values exactly one
of the two branch guards at check_file_type is true, so the branch always
selects a target whenever the entry step succeeded. -/
theorem check_file_type_exhaustive (fs : FS) (home p v : String)
    (h : check_file_type fs home p = Except.ok v) :
    ((fsGet fs (expanduser home p)).isSome
      ∧ (strToLower (pySuffix (expanduser home p)) = ".pdf"
         ∨ strToLower (pySuffix (expanduser home p)) = ".txt"
         ∨ strToLower (pySuffix (expanduser home p)) = ".md"))
    ∧ (v = "pdf" ∨ v = "text" ∨ v = "markdown")
    ∧ (∀ ctx : Context, ctxGet ctx "file_type" = some (Value.str v) →
        (guardPdf ctx = true ∧ guardTextOrMarkdown ctx = false)
          ∨ (guardPdf ctx = false ∧ guardTextOrMarkdown ctx = true))
    ∧ (∀ (w : World) (ctx : Context), ctxGet ctx "file_type" = some (Value.str v) →
        (selectTransition ctx
          (transitionsOf (create_file_to_linkedin_workflow w) "check_file_type")).isSome
          = true) := by
  unfold check_file_type at h
  by_cases hex : (fsGet fs (expanduser home p)).isNone
  · simp [hex] at h
  · simp only [hex, if_false, Bool.false_eq_true, ite_false] at h
    have hex2 : (fsGet fs (expanduser home p)).isSome := by
      cases hfs : fsGet fs (expanduser home p) with
      | none => rw [hfs] at hex; simp at hex
      | some c => simp
    by_cases hpdf : strToLower (pySuffix (expanduser home p)) = ".pdf"
    · simp only [hpdf, if_pos, ite_true, Except.ok.injEq] at h
      subst h
      refine ⟨⟨hex2, Or.inl hpdf⟩, Or.inl rfl, ?_, ?_⟩
      · intro ctx hctx
        exact Or.inl ⟨by simp [guardPdf, hctx], by simp [guardTextOrMarkdown, hctx]⟩
      · intro w ctx hctx
        rw [transitionsOf_check]
        simp [selectTransition, guardPdf, hctx]
    · simp only [hpdf, if_false, Bool.false_eq_true, ite_false] at h
      by_cases htxt : strToLower (pySuffix (expanduser home p)) = ".txt"
      · simp only [htxt, if_pos, ite_true, Except.ok.injEq] at h
        subst h
        refine ⟨⟨hex2, Or.inr (Or.inl htxt)⟩, Or.inr (Or.inl rfl), ?_, ?_⟩
        · intro ctx hctx
          exact Or.inr ⟨by simp [guardPdf, hctx], by simp [guardTextOrMarkdown, hctx]⟩
        · intro w ctx hctx
          rw [transitionsOf_check]
          simp [selectTransition, guardPdf, guardTextOrMarkdown, hctx]
      · simp only [htxt, if_false, Bool.false_eq_true, ite_false] at h
        by_cases hmd : strToLower (pySuffix (expanduser home p)) = ".md"
        · simp only [hmd, if_pos, ite_true, Except.ok.injEq] at h
          subst h
          refine ⟨⟨hex2, Or.inr (Or.inr hmd)⟩, Or.inr (Or.inr rfl), ?_, ?_⟩
          · intro ctx hctx
            exact Or.inr ⟨by simp [guardPdf, hctx], by simp [guardTextOrMarkdown, hctx]⟩
          · intro w ctx hctx
            rw [transitionsOf_check]
            simp [selectTransition, guardPdf, guardTextOrMarkdown, hctx]
        · simp [hmd] at h

theorem check_file_type_exhaustive_witness :
    check_file_type [("/d/report.txt", "file body")] "/h" "/d/report.txt"
        = Except.ok "text"
      ∧ ("text" = "pdf" ∨ "text" = "text" ∨ "text" = "markdown") := by
  refine ⟨rfl, ?_⟩
  exact (check_file_type_exhaustive [("/d/report.txt", "file body")] "/h"
    "/d/report.txt" "text" rfl).2.1

/-! ## File-writing steps -/

/-- C7: invoking a file-writing step twice with the same inputs yields the
same file system and the same returned path as invoking it once: the second
write overwrites the artifact with identical contents, never appending. -/
theorem save_steps_idempotent (fs : FS) (home mc dc om fp : String)
    (h : fileName (expanduser home fp) ≠ "") :
    (∃ fs1 p1, save_markdown_content fs home mc fp = Except.ok (fs1, p1)
        ∧ save_markdown_content fs1 home mc fp = Except.ok (fs1, p1))
    ∧ (∃ fs2 p2, save_draft_post_content fs home dc fp = Except.ok (fs2, p2)
        ∧ save_draft_post_content fs2 home dc fp = Except.ok (fs2, p2))
    ∧ (∃ fs3 p3, save_node fs mc om = Except.ok (fs3, p3)
        ∧ save_node fs3 mc om = Except.ok (fs3, p3)) := by
  refine
    ⟨⟨fsWrite fs (pyWithSuffix (expanduser home fp) ".extracted.md") mc,
      pyWithSuffix (expanduser home fp) ".extracted.md", ?_, ?_⟩,
     ⟨fsWrite fs (pyWithSuffix (expanduser home fp) ".draft.md") dc,
      pyWithSuffix (expanduser home fp) ".draft.md", ?_, ?_⟩,
     ⟨fsWrite fs om mc, om, ?_, ?_⟩⟩ <;>
    simp [save_markdown_content, save_draft_post_content, save_node, h,
      fsWrite, dictSet_set_self]

theorem save_steps_idempotent_witness :
    fileName (expanduser "/h" "/d/report.txt") ≠ ""
      ∧ (∃ fs1 p1,
          save_markdown_content [] "/h" "body" "/d/report.txt" = Except.ok (fs1, p1)
          ∧ save_markdown_content fs1 "/h" "body" "/d/report.txt" = Except.ok (fs1, p1)) := by
  refine ⟨by decide, ?_⟩
  exact (save_steps_idempotent [] "/h" "body" "draft" "/out/x.md" "/d/report.txt"
    (by decide)).1

/-- C8: each persisting step writes to a path that is a fixed deterministic
function of the original input path and a per-stage suffix (.extracted.md
for save_markdown_content, .draft.md for save_draft_post_content), the write
overwrites any existing file at that path, and the step returns the path. -/
theorem save_paths_deterministic (fs : FS) (home mc dc fp : String)
    (h : fileName (expanduser home fp) ≠ "") :
    save_markdown_content fs home mc fp
        = Except.ok (fsWrite fs (pyWithSuffix (expanduser home fp) ".extracted.md") mc,
                     pyWithSuffix (expanduser home fp) ".extracted.md")
    ∧ save_draft_post_content fs home dc fp
        = Except.ok (fsWrite fs (pyWithSuffix (expanduser home fp) ".draft.md") dc,
                     pyWithSuffix (expanduser home fp) ".draft.md")
    ∧ (∀ content : String,
        fsGet (fsWrite fs (pyWithSuffix (expanduser home fp) ".extracted.md") content)
          (pyWithSuffix (expanduser home fp) ".extracted.md") = some content) := by
  refine ⟨?_, ?_, ?_⟩
  · simp [save_markdown_content, h]
  · simp [save_draft_post_content, h]
  · intro content
    exact dictGet_set_self fs _ content

theorem save_paths_deterministic_witness :
    save_markdown_content [] "/h" "body" "/d/report.txt"
      = Except.ok ([("/d/report.extracted.md", "body")], "/d/report.extracted.md") :=
  (save_paths_deterministic [] "/h" "body" "draft" "/d/report.txt" (by decide)).1

/-! ## End-to-end scenarios on the built workflow -/

/-- Test fixture: a world holding a single pdf file. -/
def pdfWorld : World where
  fs := [("/d/paper.pdf", "pdf bytes")]
  home := "/h"
  zerox := fun _ _ => Except.ok (ZeroxResult.pyStr "converted markdown")
  llm := fun _ => Except.ok "resp"
  coercePaperInfo := fun _ => some { title := "T", authors := ["A"] }
  cleanOp := fun s => Except.ok s
  clip := fun _ => Except.ok ()

/-- C3: on a run whose context names an existing .txt file, the entry step
writes text under file_type, the branch selects read_text_or_markdown rather
than convert_pdf_to_markdown, and after that step markdown_content holds
exactly the file contents as read. -/
theorem txt_run_reads_file (w : World) (ctx : Context) (p content : String)
    (hp : ctxGet ctx "file_path" = some (Value.str p))
    (hfs : fsGet w.fs (expanduser w.home p) = some content)
    (hext : strToLower (pySuffix (expanduser w.home p)) = ".txt") :
    runStep (create_file_to_linkedin_workflow w) "check_file_type" ctx
        = Except.ok (ctxSet ctx "file_type" (Value.str "text"),
                     some "read_text_or_markdown")
    ∧ ctxGet (ctxSet ctx "file_type" (Value.str "text")) "file_type"
        = some (Value.str "text")
    ∧ runStep (create_file_to_linkedin_workflow w) "read_text_or_markdown"
          (ctxSet ctx "file_type" (Value.str "text"))
        = Except.ok (ctxSet (ctxSet ctx "file_type" (Value.str "text"))
                       "markdown_content" (Value.str content),
                     some "save_markdown_content")
    ∧ ctxGet (ctxSet (ctxSet ctx "file_type" (Value.str "text"))
          "markdown_content" (Value.str content)) "markdown_content"
        = some (Value.str content) := by
  have hcft : check_file_type w.fs w.home p = Except.ok "text" := by
    simp [check_file_type, hfs, hext]
  have hlogic : (checkFileTypeNode w).logic ctx = Except.ok (Value.str "text") := by
    simp [checkFileTypeNode, getStr, hp, hcft, Bind.bind, Except.bind, Except.map]
  have hget1 : ctxGet (ctxSet ctx "file_type" (Value.str "text")) "file_type"
      = some (Value.str "text") := dictGet_set_self ctx "file_type" _
  have hgfp : ctxGet (ctxSet ctx "file_type" (Value.str "text")) "file_path"
      = some (Value.str p) := by
    rw [ctxGet, ctxSet, dictGet_set_other ctx "file_type" "file_path" _ (by decide)]
    exact hp
  have hread : read_text_or_markdown w.fs w.home p "text" = Except.ok content := by
    simp [read_text_or_markdown, hfs]
  have hlogic2 : (readTextNode w).logic (ctxSet ctx "file_type" (Value.str "text"))
      = Except.ok (Value.str content) := by
    simp [readTextNode, getStr, hgfp, hget1, hread, Bind.bind, Except.bind, Except.map]
  refine ⟨?_, hget1, ?_, dictGet_set_self _ "markdown_content" _⟩
  · rw [runStep, lookupNode_check]
    simp only [hlogic]
    rw [transitionsOf_check]
    simp [checkFileTypeNode, selectTransition, guardPdf, guardTextOrMarkdown, hget1]
  · rw [runStep, lookupNode_read]
    simp only [hlogic2]
    rw [transitionsOf_read]
    simp [readTextNode, selectTransition]

theorem txt_run_reads_file_witness :
    ctxGet [("file_path", Value.str "/d/report.txt"),
            ("file_type", Value.str "text"),
            ("markdown_content", Value.str "file body")] "markdown_content"
      = some (Value.str "file body") :=
  (txt_run_reads_file happyWorld [("file_path", Value.str "/d/report.txt")]
    "/d/report.txt" "file body" rfl rfl rfl).2.2.2

/-- C4: on a run whose context names an existing .pdf file, the entry step
writes pdf under file_type and the branch selects convert_pdf_to_markdown;
both branch targets have save_markdown_content as their sole successor, and
executing save_markdown_content adds the single markdown_file_path key and
moves to extract_first_100_lines. -/
theorem pdf_run_branches_and_converges (w : World) (ctx : Context) (p : String)
    (hp : ctxGet ctx "file_path" = some (Value.str p))
    (hfs : (fsGet w.fs (expanduser w.home p)).isNone = false)
    (hext : strToLower (pySuffix (expanduser w.home p)) = ".pdf") :
    runStep (create_file_to_linkedin_workflow w) "check_file_type" ctx
        = Except.ok (ctxSet ctx "file_type" (Value.str "pdf"),
                     some "convert_pdf_to_markdown")
    ∧ transitionsOf (create_file_to_linkedin_workflow w) "convert_pdf_to_markdown"
        = [("save_markdown_content", Option.none)]
    ∧ transitionsOf (create_file_to_linkedin_workflow w) "read_text_or_markdown"
        = [("save_markdown_content", Option.none)]
    ∧ (∀ (ctx2 : Context) (mc fp2 : String),
        ctxGet ctx2 "markdown_content" = some (Value.str mc) →
        ctxGet ctx2 "file_path" = some (Value.str fp2) →
        fileName (expanduser w.home fp2) ≠ "" →
        runStep (create_file_to_linkedin_workflow w) "save_markdown_content" ctx2
          = Except.ok (ctxSet ctx2 "markdown_file_path"
                (Value.str (pyWithSuffix (expanduser w.home fp2) ".extracted.md")),
              some "extract_first_100_lines")) := by
  have hcft : check_file_type w.fs w.home p = Except.ok "pdf" := by
    simp [check_file_type, hfs, hext]
  have hlogic : (checkFileTypeNode w).logic ctx = Except.ok (Value.str "pdf") := by
    simp [checkFileTypeNode, getStr, hp, hcft, Bind.bind, Except.bind, Except.map]
  have hget1 : ctxGet (ctxSet ctx "file_type" (Value.str "pdf")) "file_type"
      = some (Value.str "pdf") := dictGet_set_self ctx "file_type" _
  refine ⟨?_, transitionsOf_convert w, transitionsOf_read w, ?_⟩
  · rw [runStep, lookupNode_check]
    simp only [hlogic]
    rw [transitionsOf_check]
    simp [checkFileTypeNode, selectTransition, guardPdf, hget1]
  · intro ctx2 mc fp2 hmc hfp2 hname
    have hsave : save_markdown_content w.fs w.home mc fp2
        = Except.ok (fsWrite w.fs (pyWithSuffix (expanduser w.home fp2) ".extracted.md") mc,
            pyWithSuffix (expanduser w.home fp2) ".extracted.md") := by
      simp [save_markdown_content, hname]
    have hlogic2 : (saveMarkdownNode w).logic ctx2
        = Except.ok (Value.str (pyWithSuffix (expanduser w.home fp2) ".extracted.md")) := by
      simp [saveMarkdownNode, getStr, hmc, hfp2, hsave, Bind.bind, Except.bind]
    rw [runStep, lookupNode_saveMarkdown]
    simp only [hlogic2]
    rw [transitionsOf_saveMarkdown]
    simp [saveMarkdownNode, selectTransition]

theorem pdf_run_branches_and_converges_witness :
    runStep (create_file_to_linkedin_workflow pdfWorld) "check_file_type"
        [("file_path", Value.str "/d/paper.pdf")]
      = Except.ok ([("file_path", Value.str "/d/paper.pdf"),
                    ("file_type", Value.str "pdf")],
                   some "convert_pdf_to_markdown")
    ∧ runStep (create_file_to_linkedin_workflow pdfWorld) "save_markdown_content"
        [("file_path", Value.str "/d/paper.pdf"),
         ("markdown_content", Value.str "converted markdown")]
      = Except.ok ([("file_path", Value.str "/d/paper.pdf"),
                    ("markdown_content", Value.str "converted markdown"),
                    ("markdown_file_path", Value.str "/d/paper.extracted.md")],
                   some "extract_first_100_lines") :=
  ⟨(pdf_run_branches_and_converges pdfWorld
      [("file_path", Value.str "/d/paper.pdf")] "/d/paper.pdf" rfl rfl rfl).1,
   (pdf_run_branches_and_converges pdfWorld
      [("file_path", Value.str "/d/paper.pdf")] "/d/paper.pdf" rfl rfl rfl).2.2.2
      [("file_path", Value.str "/d/paper.pdf"),
       ("markdown_content", Value.str "converted markdown")]
      "converted markdown" "/d/paper.pdf" rfl rfl (by decide)⟩

/-- C5: when the structured generative step extract_paper_info receives a
collaborator response that cannot be coerced into the PaperInfo shape, the
step fails with StructuredOutputMismatch and the run aborts there: the engine
returns the error (naming the step) instead of a context, so paper_info is
never written. -/
theorem structured_mismatch_aborts (w : World) (ctx : Context) (fuel : Nat)
    (lines resp : String)
    (hl : ctxGet ctx "first_100_lines" = some (Value.str lines))
    (hllm : w.llm (extractPaperInfoPrompt lines) = Except.ok resp)
    (hco : w.coercePaperInfo resp = Option.none) :
    runFrom (create_file_to_linkedin_workflow w) (fuel + 1) "extract_paper_info" ctx
      = Except.error (FlowError.stepError "extract_paper_info"
          PyErr.structuredOutputMismatch) := by
  have hlogic : (extractPaperInfoNode w).logic ctx
      = Except.error PyErr.structuredOutputMismatch := by
    simp [extractPaperInfoNode, getStr, hl, hllm, hco, Bind.bind, Except.bind]
  rw [runFrom, runStep, lookupNode_extractPaperInfo]
  simp only [hlogic]

theorem structured_mismatch_aborts_witness :
    runFrom (create_file_to_linkedin_workflow failingCleanWorld) 1
        "extract_paper_info" [("first_100_lines", Value.str "some lines")]
      = Except.error (FlowError.stepError "extract_paper_info"
          PyErr.structuredOutputMismatch) :=
  structured_mismatch_aborts failingCleanWorld
    [("first_100_lines", Value.str "some lines")] 0 "some lines" "resp"
    rfl rfl rfl

/-- C9: after the engine returns a final context, run_workflow raises a
workflow-level ValueError when post_content is absent or falsy (empty), and
returns the final context unchanged when post_content is present and
non-empty. -/
theorem run_workflow_post_content_probe (w : World) (fuel : Nat)
    (fp tem cm wm : String) (od : Option String) (cf : Bool) (mcc : Int)
    (result : Context)
    (hex : (fsGet w.fs (expanduser w.home fp)).isNone = false)
    (hrun : run (create_file_to_linkedin_workflow w) fuel
        (initialContext w fp tem cm wm od cf mcc) = Except.ok result) :
    (postContentAbsentOrFalsy result = true →
      run_workflow w fuel fp tem cm wm od cf mcc
        = Except.error (FlowError.callerError (PyErr.valueError
            "Workflow completed but no post content was generated.")))
    ∧ (postContentAbsentOrFalsy result = false →
      run_workflow w fuel fp tem cm wm od cf mcc = Except.ok result) := by
  constructor <;> intro hpc <;> simp [run_workflow, hex, hrun, hpc]

theorem run_workflow_post_content_probe_witness :
    run_workflow happyWorld 1 "/d/report.txt" "m1" "m2" "m3" Option.none true 3000
      = Except.error (FlowError.callerError (PyErr.valueError
          "Workflow completed but no post content was generated.")) :=
  (run_workflow_post_content_probe happyWorld 1 "/d/report.txt" "m1" "m2" "m3"
    Option.none true 3000
    [("file_path", Value.str "/d/report.txt"),
     ("model", Value.str "m1"),
     ("text_extraction_model", Value.str "m1"),
     ("cleaning_model", Value.str "m2"),
     ("writing_model", Value.str "m3"),
     ("output_dir", Value.str "/d"),
     ("do_copy", Value.bool true),
     ("max_character_count", Value.int 3000),
     ("file_type", Value.str "text")] rfl rfl).1 rfl

end MyTools
